import Mathlib

/-!
Shallow embedding of the gzip-static-server request pipeline
(`src/utils/mime.ts`, `src/utils/cache.ts`, `src/handlers/gzip.ts`,
`src/handlers/static.ts`, `src/server.ts`) and proofs about it.

Conventions:
* Byte buffers (`Buffer`) are `List Nat` with entries < 256.
* JS strings are Lean `String`; `s.startsWith(p)` / `s.includes(p)` are
  modelled as list-of-characters prefix / infix tests, which is exactly
  their JS semantics.
* Filesystem state is a function `String → Option FsNode`; `none` models
  `fs.statSync` / `fs.readFileSync` throwing (ENOENT etc.).
* JS `Map` is an insertion-ordered association list; `Map.set` on an
  existing key keeps its position, `delete` + `set` appends at the end.
* `currentSize` is an `Int` because the source arithmetic can drive it
  below zero (see the C1 analysis).
-/

set_option maxRecDepth 100000

namespace GzipServer

/-- JS `s.startsWith(p)`: `p` is a prefix of `s`. -/
def jsStartsWith (s p : String) : Bool :=
  p.data.isPrefixOf s.data

/-- Contiguous-sublist test on character lists. -/
def charsInfixOf (p : List Char) : List Char → Bool
  | [] => p.isPrefixOf []
  | c :: rest => p.isPrefixOf (c :: rest) || charsInfixOf p rest

/-- JS `s.includes(p)`: `p` occurs as a contiguous substring of `s`. -/
def jsIncludes (s p : String) : Bool :=
  charsInfixOf p.data s.data

/-! ## MD5 (the `crypto.createHash('md5')` collaborator used by
`MemoryCache.generateETag`), RFC 1321, over byte lists. -/

/-- Truncate to 32 bits. -/
def u32 (x : Nat) : Nat := x % 4294967296

/-- Bitwise AND on `fuel` low bits, by plain arithmetic. -/
def bAnd : Nat → Nat → Nat → Nat
  | 0, _, _ => 0
  | f + 1, x, y => (x % 2) * (y % 2) + 2 * bAnd f (x / 2) (y / 2)

/-- Bitwise OR on `fuel` low bits. -/
def bOr : Nat → Nat → Nat → Nat
  | 0, _, _ => 0
  | f + 1, x, y => (x % 2 + y % 2 - (x % 2) * (y % 2)) + 2 * bOr f (x / 2) (y / 2)

/-- Bitwise XOR on `fuel` low bits. -/
def bXor : Nat → Nat → Nat → Nat
  | 0, _, _ => 0
  | f + 1, x, y => (x % 2 + y % 2) % 2 + 2 * bXor f (x / 2) (y / 2)

def land32 (x y : Nat) : Nat := bAnd 32 x y

def lor32 (x y : Nat) : Nat := bOr 32 x y

def lxor32 (x y : Nat) : Nat := bXor 32 x y

def lnot32 (x : Nat) : Nat := 4294967295 - u32 x

/-- Rotate a 32-bit value left by `s` bits (`0 ≤ s < 32`). -/
def rotl32 (x s : Nat) : Nat :=
  (u32 x * 2 ^ s) % 4294967296 + u32 x / 2 ^ (32 - s)

/-- MD5 round functions. -/
def md5F (b c d : Nat) : Nat := lor32 (land32 b c) (land32 (lnot32 b) d)

def md5G (b c d : Nat) : Nat := lor32 (land32 b d) (land32 c (lnot32 d))

def md5H (b c d : Nat) : Nat := lxor32 b (lxor32 c d)

def md5I (b c d : Nat) : Nat := lxor32 c (lor32 b (lnot32 d))

/-- MD5 sine-derived constants `K[i] = ⌊|sin(i+1)|·2³²⌋`. -/
def md5K : List Nat :=
  [3614090360, 3905402710, 606105819, 3250441966, 4118548399, 1200080426,
   2821735955, 4249261313, 1770035416, 2336552879, 4294925233, 2304563134,
   1804603682, 4254626195, 2792965006, 1236535329, 4129170786, 3225465664,
   643717713, 3921069994, 3593408605, 38016083, 3634488961, 3889429448,
   568446438, 3275163606, 4107603335, 1163531501, 2850285829, 4243563512,
   1735328473, 2368359562, 4294588738, 2272392833, 1839030562, 4259657740,
   2763975236, 1272893353, 4139469664, 3200236656, 681279174, 3936430074,
   3572445317, 76029189, 3654602809, 3873151461, 530742520, 3299628645,
   4096336452, 1126891415, 2878612391, 4237533241, 1700485571, 2399980690,
   4293915773, 2240044497, 1873313359, 4264355552, 2734768916, 1309151649,
   4149444226, 3174756917, 718787259, 3951481745]

/-- MD5 per-round left-rotation amounts. -/
def md5S : List Nat :=
  [7, 12, 17, 22, 7, 12, 17, 22, 7, 12, 17, 22, 7, 12, 17, 22,
   5, 9, 14, 20, 5, 9, 14, 20, 5, 9, 14, 20, 5, 9, 14, 20,
   4, 11, 16, 23, 4, 11, 16, 23, 4, 11, 16, 23, 4, 11, 16, 23,
   6, 10, 15, 21, 6, 10, 15, 21, 6, 10, 15, 21, 6, 10, 15, 21]

/-- One MD5 round step `i` (0-63) on state `(a, b, c, d)` with message words `M`. -/
def md5Step (M : List Nat) (st : Nat × Nat × Nat × Nat) (i : Nat) :
    Nat × Nat × Nat × Nat :=
  match st with
  | (a, b, c, d) =>
    let fg : Nat × Nat :=
      if i < 16 then (md5F b c d, i)
      else if i < 32 then (md5G b c d, (5 * i + 1) % 16)
      else if i < 48 then (md5H b c d, (3 * i + 5) % 16)
      else (md5I b c d, (7 * i) % 16)
    let nb := u32 (b + rotl32 (u32 (a + fg.1 + md5K.getD i 0 + M.getD fg.2 0))
                              (md5S.getD i 0))
    (d, nb, b, c)

/-- Little-endian byte decomposition, `n` bytes. -/
def leBytes : Nat → Nat → List Nat
  | 0, _ => []
  | k + 1, x => x % 256 :: leBytes k (x / 256)

/-- Group bytes into 32-bit message words, little-endian. -/
def bytesToWords : List Nat → List Nat
  | b0 :: b1 :: b2 :: b3 :: rest =>
      (b0 + 256 * (b1 + 256 * (b2 + 256 * b3))) :: bytesToWords rest
  | _ => []

/-- Process one 64-byte block through the 64 MD5 rounds and add into state. -/
def md5Block (M : List Nat) (st : Nat × Nat × Nat × Nat) : Nat × Nat × Nat × Nat :=
  match st, (List.range 64).foldl (md5Step M) st with
  | (a0, b0, c0, d0), (a, b, c, d) =>
      (u32 (a0 + a), u32 (b0 + b), u32 (c0 + c), u32 (d0 + d))

/-- Consume the padded byte stream 64 bytes at a time (fuel-structural). -/
def md5Blocks : Nat → List Nat → Nat × Nat × Nat × Nat → Nat × Nat × Nat × Nat
  | 0, _, st => st
  | _ + 1, [], st => st
  | f + 1, bytes, st =>
      md5Blocks f (bytes.drop 64) (md5Block (bytesToWords (bytes.take 64)) st)

/-- RFC 1321 padding: `0x80`, zeros to 56 mod 64, 8-byte LE bit length. -/
def md5Pad (msg : List Nat) : List Nat :=
  msg ++ [128] ++ List.replicate ((119 - msg.length % 64) % 64) 0
      ++ leBytes 8 (8 * msg.length)

/-- The 16 MD5 digest bytes of a byte list. -/
def md5Digest (msg : List Nat) : List Nat :=
  let padded := md5Pad msg
  match md5Blocks padded.length padded
      (1732584193, 4023233417, 2562383102, 271733878) with
  | (a, b, c, d) => leBytes 4 a ++ leBytes 4 b ++ leBytes 4 c ++ leBytes 4 d

/-- Lowercase hex digit. -/
def hexDigit (n : Nat) : Char :=
  if n < 10 then Char.ofNat (48 + n) else Char.ofNat (87 + n)

/-- Two lowercase hex digits of one byte. -/
def byteHex (b : Nat) : List Char := [hexDigit (b / 16), hexDigit (b % 16)]

/-- Lowercase hex MD5 digest, as produced by `.digest('hex')`. -/
def md5hex (msg : List Nat) : String :=
  String.mk (md5Digest msg |>.foldr (fun b acc => byteHex b ++ acc) [])


/-! ## Node `path` collaborator (POSIX), over `/`-split segment lists. -/

/-- One step of POSIX path normalisation over segments. -/
def normStep (acc : List String) (s : String) : List String :=
  if s = "" ∨ s = "." then acc
  else if s = ".." then acc.dropLast
  else acc ++ [s]

/-- Normalise an absolute path's segments, as `path.join`/`path.resolve`
do: drop empty and `.` segments, resolve `..`, clamping at the root. -/
def normAbs (segs : List String) : List String :=
  segs.foldl normStep []

/-- Split a character list at a separator (semantics of JS `split` /
`String.splitOn` for a one-character separator). -/
def splitChars (sep : Char) : List Char → List (List Char)
  | [] => [[]]
  | c :: rest =>
      if c = sep then [] :: splitChars sep rest
      else
        match splitChars sep rest with
        | [] => [[c]]
        | h :: t => (c :: h) :: t

/-- Join character lists with a separator (semantics of `intercalate`). -/
def joinChars (sep : Char) : List (List Char) → List Char
  | [] => []
  | [h] => h
  | h :: t => h ++ sep :: joinChars sep t

/-- Render absolute-path segments back to a path string
(`"/" ++ intercalate "/" segs`). -/
def renderAbs (segs : List String) : String :=
  String.mk ('/' :: joinChars '/' (segs.map String.data))

/-- Split a path string into `/`-separated segments. -/
def pathSegs (p : String) : List String :=
  (splitChars '/' p.data).map String.mk

/-- Node `path.join(root, p)` for an absolute, normalised `root`:
concatenate and normalise. -/
def pathJoin (rootSegs : List String) (p : String) : List String :=
  normAbs (rootSegs ++ pathSegs p)

/-- Length of the common prefix of two segment lists. -/
def commonPrefixLen : List String → List String → Nat
  | x :: xs, y :: ys => if x = y then commonPrefixLen xs ys + 1 else 0
  | _, _ => 0

/-- Node `path.relative` on already-normalised absolute segment lists:
one `..` per uncommon `from` segment, then the uncommon `to` segments. -/
def pathRelativeSegs (fromSegs toSegs : List String) : List String :=
  List.replicate (fromSegs.length - commonPrefixLen fromSegs toSegs) ".."
    ++ toSegs.drop (commonPrefixLen fromSegs toSegs)

/-- The source's `relativePath.startsWith('..')` on the rendered relative
path: since segments contain no `/`, the joined string starts with `..`
exactly when the first segment starts with `..`. -/
def relStartsWithDotDot (rel : List String) : Bool :=
  match rel with
  | [] => false
  | s :: _ => ['.', '.'].isPrefixOf s.data

/-! ## `src/utils/mime.ts` -/

/-- The `mime-types` `lookup` table is an external collaborator; `getMimeType`
takes it as a parameter and falls back to `application/octet-stream`. -/
def getMimeType (mimeLookup : String → Option String) (filePath : String) : String :=
  (mimeLookup filePath).getD "application/octet-stream"

/-- The `compressibleTypes` list in `shouldCompress`. -/
def compressibleTypes : List String :=
  ["text/", "application/javascript", "application/json", "application/xml",
   "application/x-javascript", "application/xhtml+xml", "image/svg+xml",
   "application/wasm"]

/-- The `nonCompressibleTypes` list in `shouldCompress`. -/
def nonCompressibleTypes : List String :=
  ["image/", "video/", "audio/", "application/pdf", "application/zip",
   "application/gzip", "application/x-gzip"]

/-- `shouldCompress` from `src/utils/mime.ts`: the non-compressible prefix
scan runs first and returns early, then the compressible prefix scan. -/
def shouldCompress (mimeType : String) : Bool :=
  if nonCompressibleTypes.any (fun t => jsStartsWith mimeType t) then false
  else if compressibleTypes.any (fun t => jsStartsWith mimeType t) then true
  else false

/-- The `compressibleTypes` list in `StaticFileHandler.shouldCompressFile`. -/
def staticCompressibleTypes : List String :=
  ["text/", "application/javascript", "application/json", "application/xml",
   "application/x-javascript", "application/xhtml+xml", "image/svg+xml"]

/-- The `nonCompressibleTypes` list in `StaticFileHandler.shouldCompressFile`. -/
def staticNonCompressibleTypes : List String :=
  ["image/", "video/", "audio/", "application/pdf", "application/zip",
   "application/gzip"]

/-- `StaticFileHandler.shouldCompressFile`: the non-compressible prefix scan
runs first and returns early; compressible prefixes apply only above the
1 KiB size threshold. -/
def shouldCompressFile (mimeType : String) (size : Nat) : Bool :=
  if staticNonCompressibleTypes.any (fun t => jsStartsWith mimeType t) then false
  else if staticCompressibleTypes.any
      (fun t => jsStartsWith mimeType t && size > 1024) then true
  else false

/-! ## `src/utils/cache.ts` (`MemoryCache`) -/

/-- Result of `fs.statSync`/`fs.readFileSync` for one path: stat fields
plus the file bytes. -/
structure FsNode where
  isFile : Bool
  size : Nat
  mtimeMs : Nat
  content : List Nat
  deriving DecidableEq, Repr

/-- A filesystem snapshot; `none` models the sync fs call throwing. -/
abbrev Fs := String → Option FsNode

/-- The `CacheEntry` interface from `src/types/index.ts`. -/
structure CacheEntry where
  content : List Nat
  compressed : Option (List Nat)
  etag : String
  lastModified : String
  mimeType : String
  mtime : Nat
  deriving DecidableEq, Repr

/-- `MemoryCache.generateETag`: quoted lowercase md5 hex of the content. -/
def generateETag (content : List Nat) : String :=
  "\"" ++ md5hex content ++ "\""

/-- `MemoryCache.calculateSize`: content length plus compressed length
(0 when absent). -/
def calculateSize (e : CacheEntry) : Nat :=
  e.content.length + ((e.compressed.map List.length).getD 0)

/-- The `MemoryCache` fields: the JS `Map` (head = oldest insertion),
`maxSize`, and `currentSize` (an `Int`: the source arithmetic can drive
it negative). -/
structure CacheState where
  entries : List (String × CacheEntry)
  maxSize : Nat
  currentSize : Int
  deriving DecidableEq, Repr

/-- A freshly constructed `MemoryCache`. -/
def emptyCache (maxSize : Nat) : CacheState := ⟨[], maxSize, 0⟩

/-- JS `Map.get`. -/
def mapGet (m : List (String × CacheEntry)) (k : String) : Option CacheEntry :=
  (m.find? (fun p => p.1 == k)).map (fun p => p.2)

/-- JS `Map.set`: update in place when the key exists (keeping its
insertion position), otherwise append at the end. -/
def mapSet (m : List (String × CacheEntry)) (k : String) (v : CacheEntry) :
    List (String × CacheEntry) :=
  match m with
  | [] => [(k, v)]
  | (k0, v0) :: rest =>
      if k0 = k then (k0, v) :: rest else (k0, v0) :: mapSet rest k v

/-- JS `Map.delete`. -/
def mapDelete (m : List (String × CacheEntry)) (k : String) :
    List (String × CacheEntry) :=
  m.filter (fun p => p.1 != k)

/-- `MemoryCache.evictOldest`: remove the first (oldest) map entry and
subtract its size; the JS truthiness guard `if (firstKey)` skips an
empty-string key. -/
def evictOldest (st : CacheState) : CacheState :=
  match st.entries with
  | [] => st
  | (k, e) :: rest =>
      if k = "" then st
      else { st with entries := rest,
                     currentSize := st.currentSize - (calculateSize e : Int) }

/-- The `while (currentSize + entrySize > maxSize && size > 0)` eviction
loop of `MemoryCache.set`, with fuel: every productive iteration removes
one entry, so `entries.length` fuel is exact. (When `evictOldest` makes no
progress — only possible for an empty-string key, which no real path
produces — the source loops forever and the model stops.) -/
def evictLoop : Nat → Int → CacheState → CacheState
  | 0, _, st => st
  | f + 1, esz, st =>
      if st.currentSize + esz > (st.maxSize : Int) ∧ 0 < st.entries.length then
        let st1 := evictOldest st
        if st1.entries.length < st.entries.length then evictLoop f esz st1 else st1
      else st

/-- `MemoryCache.set`. It begins with a synchronous
`require('fs').statSync(path)`, so a missing path makes `set` throw
(`none`). On overwrite the old entry's size is subtracted while the old
entry itself stays in the map, so the eviction loop can evict the very key
being written and subtract its size a second time. -/
def cacheSet (fs : Fs) (toUTC : Nat → String) (st : CacheState) (path : String)
    (content : List Nat) (mimeType : String) (compressed : Option (List Nat)) :
    Option CacheState :=
  match fs path with
  | none => none
  | some stat =>
    let entry : CacheEntry :=
      { content := content, compressed := compressed,
        etag := generateETag content, lastModified := toUTC stat.mtimeMs,
        mimeType := mimeType, mtime := stat.mtimeMs }
    let entrySize := calculateSize entry
    if (entrySize : Int) > (st.maxSize : Int) then some st
    else
      let cs1 : Int :=
        match mapGet st.entries path with
        | some old => st.currentSize - (calculateSize old : Int)
        | none => st.currentSize
      let st1 : CacheState := { st with currentSize := cs1 }
      let st2 := evictLoop st1.entries.length (entrySize : Int) st1
      some { st2 with entries := mapSet st2.entries path entry,
                      currentSize := st2.currentSize + (entrySize : Int) }

/-- `MemoryCache.get`: on a hit the entry is deleted and re-inserted at
the end (most recently used). -/
def cacheGet (st : CacheState) (path : String) : Option CacheEntry × CacheState :=
  match mapGet st.entries path with
  | some e =>
      (some e, { st with entries := mapSet (mapDelete st.entries path) path e })
  | none => (none, st)

/-- `MemoryCache.delete`. -/
def cacheDelete (st : CacheState) (path : String) : CacheState :=
  match mapGet st.entries path with
  | some e => { st with entries := mapDelete st.entries path,
                        currentSize := st.currentSize - (calculateSize e : Int) }
  | none => st

/-- `MemoryCache.clear`. -/
def cacheClear (st : CacheState) : CacheState :=
  { st with entries := [], currentSize := 0 }

/-- `MemoryCache.isModified`: true when no entry exists or the stored
mtime differs. -/
def isModifiedChk (st : CacheState) (path : String) (mtime : Nat) : Bool :=
  match mapGet st.entries path with
  | some e => e.mtime != mtime
  | none => true

/-- Total byte size actually held by the entries: the quantity the spec
says `currentSize` must equal. -/
def entriesSizeSum (st : CacheState) : Nat :=
  (st.entries.map (fun p => calculateSize p.2)).sum

/-! ## `src/handlers/gzip.ts` and the HTTP response model -/

/-- Response headers as an ordered list; `setHeader` replaces in place. -/
abbrev Headers := List (String × String)

/-- Node `res.setHeader`: overwrite when present, else append. -/
def hSet (hs : Headers) (k v : String) : Headers :=
  match hs with
  | [] => [(k, v)]
  | (k0, v0) :: rest => if k0 = k then (k0, v) :: rest else (k0, v0) :: hSet rest k v

/-- Look up a response header. -/
def hGet (hs : Headers) (k : String) : Option String :=
  (hs.find? (fun p => p.1 == k)).map (fun p => p.2)

/-- Response body: none, a text message, or file bytes. -/
inductive Body where
  | empty : Body
  | text : String → Body
  | bytes : List Nat → Body
  deriving DecidableEq, Repr

/-- A finished HTTP response. -/
structure Resp where
  status : Nat
  headers : Headers
  body : Body
  deriving DecidableEq, Repr

/-- The request fields the pipeline reads (headers absent ↦ `none`). -/
structure Req where
  method : String
  url : Option String
  ifNoneMatch : Option String
  ifModifiedSince : Option String
  acceptEncoding : Option String
  deriving Repr

/-- The `CompressionResult` interface from `src/types/index.ts`. -/
structure CompressionResult where
  content : List Nat
  originalSize : Nat
  compressedSize : Nat
  encoding : String
  deriving DecidableEq, Repr

/-- `acceptsGzip`: the `Accept-Encoding` header (or `''`) contains `gzip`. -/
def acceptsGzip (acceptEncoding : Option String) : Bool :=
  jsIncludes (acceptEncoding.getD "") "gzip"

/-- `shouldServeCompressed`: a compression result exists and the client
accepts gzip. -/
def shouldServeCompressed (acceptEncoding : Option String)
    (cr : Option CompressionResult) : Bool :=
  cr.isSome && acceptsGzip acceptEncoding

/-- `setCompressionHeaders` from `src/handlers/gzip.ts`. `ratioStr` stands
for the external floating-point `((1 - c/o) * 100).toFixed(2) + '%'`
formatting, which no claim depends on. Note `Content-Encoding` is set
whenever a compression result exists, regardless of `Accept-Encoding`. -/
def setCompressionHeaders (ratioStr : Nat → Nat → String) (hs : Headers)
    (cr : Option CompressionResult) (etag lastModified mimeType : String) :
    Headers :=
  let hs1 := hSet hs "Content-Type" mimeType
  let hs2 := hSet hs1 "ETag" etag
  let hs3 := hSet hs2 "Last-Modified" lastModified
  let hs4 := hSet hs3 "Cache-Control" "public, max-age=3600"
  match cr with
  | some c =>
      let hs5 := hSet hs4 "Content-Encoding" c.encoding
      let hs6 := hSet hs5 "Content-Length" (toString c.compressedSize)
      hSet hs6 "X-Compression-Ratio" (ratioStr c.compressedSize c.originalSize)
  | none => hSet hs4 "X-Compression" "none"

/-! ## `src/handlers/static.ts` (`StaticFileHandler`) -/

/-- The `FileInfo` interface from `src/types/index.ts`. -/
structure FileInfo where
  path : String
  size : Nat
  mtimeMs : Nat
  etag : String
  mimeType : String
  shouldCompress : Bool
  deriving DecidableEq, Repr

/-- `StaticFileHandler.generateETag`: the quoted `size-mtimeMillis` pair. -/
def statETag (size mtimeMs : Nat) : String :=
  "\"" ++ toString size ++ "-" ++ toString mtimeMs ++ "\""

/-- `StaticFileHandler.getFileInfo`: join under the root, stat, require a
regular file, then reject when `path.relative(root, full)` starts with
`..`; on success resolve the MIME type and the compressibility decision.
A throwing stat is caught and yields `none`. -/
def getFileInfo (fs : Fs) (mimeLookup : String → Option String)
    (rootSegs : List String) (filePath : String) : Option FileInfo :=
  let fullSegs := pathJoin rootSegs filePath
  let fullPath := renderAbs fullSegs
  match fs fullPath with
  | none => none
  | some stat =>
    if !stat.isFile then none
    else if relStartsWithDotDot (pathRelativeSegs rootSegs fullSegs) then none
    else
      let mt := getMimeType mimeLookup fullPath
      some { path := fullPath, size := stat.size, mtimeMs := stat.mtimeMs,
             etag := statETag stat.size stat.mtimeMs, mimeType := mt,
             shouldCompress := shouldCompressFile mt stat.size }

/-- `StaticFileHandler.sendError`. -/
def sendError (hs : Headers) (status : Nat) (message : String) : Resp :=
  { status := status, headers := hSet hs "Content-Type" "text/plain",
    body := Body.text message }

/-- JS truthiness guard plus strict equality for a request header:
`hdr && hdr === v`. -/
def hdrTruthyEq (hdr : Option String) (v : String) : Bool :=
  match hdr with
  | some s => (s != "") && (s == v)
  | none => false

/-- The tail of `handleFileRequest` once content and compressed bytes are
fixed: the `If-None-Match` check (against the stat-derived etag), the
`If-Modified-Since` check (against the current mtime's UTC string), then
header emission and the body choice. -/
def serveEntry (ratioStr : Nat → Nat → String) (toUTC : Nat → String)
    (req : Req) (fi : FileInfo) (content : List Nat)
    (compressed : Option (List Nat)) : Resp :=
  if hdrTruthyEq req.ifNoneMatch fi.etag then
    { status := 304, headers := [], body := Body.empty }
  else if hdrTruthyEq req.ifModifiedSince (toUTC fi.mtimeMs) then
    { status := 304, headers := [], body := Body.empty }
  else
    let cr : Option CompressionResult :=
      compressed.map (fun c =>
        { content := c, originalSize := content.length,
          compressedSize := c.length, encoding := "gzip" })
    let sendCompressed := shouldServeCompressed req.acceptEncoding cr
    let finalContent :=
      match compressed, sendCompressed with
      | some c, true => c
      | _, _ => content
    let hs := setCompressionHeaders ratioStr [] cr fi.etag (toUTC fi.mtimeMs)
                fi.mimeType
    let hs1 := hSet hs "Content-Length" (toString finalContent.length)
    { status := 200, headers := hs1, body := Body.bytes finalContent }

/-- The cache-miss arm of `handleFileRequest`: read the file from disk,
compress when the compressibility decision says so (a compression failure
is caught and leaves `compressed` unset), then `cache.set` — whose own
`statSync` runs against the possibly-changed filesystem `fs1` and, on
throw, is caught by the handler's catch-all as a 500. -/
def fillAndServe (fs0 fs1 : Fs) (toUTC : Nat → String)
    (gzipFn : List Nat → Option (List Nat)) (ratioStr : Nat → Nat → String)
    (cache1 : CacheState) (req : Req) (fi : FileInfo) : Resp × CacheState :=
  match fs0 fi.path with
  | none => (sendError [] 500 "Internal server error", cache1)
  | some node =>
    let content := node.content
    let compressed := if fi.shouldCompress then gzipFn content else none
    match cacheSet fs1 toUTC cache1 fi.path content fi.mimeType compressed with
    | none => (sendError [] 500 "Internal server error", cache1)
    | some cache2 => (serveEntry ratioStr toUTC req fi content compressed, cache2)

/-- `StaticFileHandler.handleFileRequest`: resolve the file (404 on
failure), consult the cache (the `get` itself is an LRU touch), reuse the
entry when present and unmodified, otherwise fill; then the conditional
checks and the response. `fs0` is the filesystem at stat/read time, `fs1`
at `cache.set` time. -/
def handleFileRequest (fs0 fs1 : Fs) (mimeLookup : String → Option String)
    (toUTC : Nat → String) (gzipFn : List Nat → Option (List Nat))
    (ratioStr : Nat → Nat → String) (rootSegs : List String)
    (cache : CacheState) (req : Req) (filePath : String) : Resp × CacheState :=
  match getFileInfo fs0 mimeLookup rootSegs filePath with
  | none => (sendError [] 404 "File not found", cache)
  | some fi =>
    let g := cacheGet cache fi.path
    match g.1 with
    | some e =>
        if !(isModifiedChk g.2 fi.path fi.mtimeMs) then
          (serveEntry ratioStr toUTC req fi e.content e.compressed, g.2)
        else fillAndServe fs0 fs1 toUTC gzipFn ratioStr g.2 req fi
    | none => fillAndServe fs0 fs1 toUTC gzipFn ratioStr g.2 req fi

/-! ## `decodeURIComponent` (ECMA-262 Decode, empty reserved set) -/

/-- Hex digit value of a character. -/
def hexVal (c : Char) : Option Nat :=
  if 48 ≤ c.toNat ∧ c.toNat ≤ 57 then some (c.toNat - 48)
  else if 97 ≤ c.toNat ∧ c.toNat ≤ 102 then some (c.toNat - 87)
  else if 65 ≤ c.toNat ∧ c.toNat ≤ 70 then some (c.toNat - 55)
  else none

/-- Parse one `%XX` escape at the head of the character list. -/
def pctByte : List Char → Option (Nat × List Char)
  | '%' :: h1 :: h2 :: rest =>
      match hexVal h1, hexVal h2 with
      | some a, some b => some (16 * a + b, rest)
      | _, _ => none
  | _ => none

/-- Decode loop: literal characters pass through; `%` escapes must form a
valid UTF-8 byte sequence, otherwise the whole decode throws `URIError`
(`none`). Fuel is the character count; every step consumes at least one
character. -/
def decodeLoop : Nat → List Char → Option (List Char)
  | 0, [] => some []
  | 0, _ :: _ => none
  | _ + 1, [] => some []
  | f + 1, '%' :: rest =>
      match pctByte ('%' :: rest) with
      | none => none
      | some (b, rest1) =>
        if b < 128 then (decodeLoop f rest1).map (fun t => Char.ofNat b :: t)
        else if b < 192 then none
        else if b < 224 then
          match pctByte rest1 with
          | some (b2, rest2) =>
            if 128 ≤ b2 ∧ b2 < 192 ∧ 128 ≤ (b - 192) * 64 + (b2 - 128) then
              (decodeLoop f rest2).map
                (fun t => Char.ofNat ((b - 192) * 64 + (b2 - 128)) :: t)
            else none
          | none => none
        else if b < 240 then
          match pctByte rest1 with
          | some (b2, rest2) =>
            match pctByte rest2 with
            | some (b3, rest3) =>
              let cp := (b - 224) * 4096 + (b2 - 128) * 64 + (b3 - 128)
              if 128 ≤ b2 ∧ b2 < 192 ∧ 128 ≤ b3 ∧ b3 < 192 ∧ 2048 ≤ cp
                  ∧ (cp < 55296 ∨ 57343 < cp) then
                (decodeLoop f rest3).map (fun t => Char.ofNat cp :: t)
              else none
            | none => none
          | none => none
        else if b < 248 then
          match pctByte rest1 with
          | some (b2, rest2) =>
            match pctByte rest2 with
            | some (b3, rest3) =>
              match pctByte rest3 with
              | some (b4, rest4) =>
                let cp := (b - 240) * 262144 + (b2 - 128) * 4096
                            + (b3 - 128) * 64 + (b4 - 128)
                if 128 ≤ b2 ∧ b2 < 192 ∧ 128 ≤ b3 ∧ b3 < 192 ∧ 128 ≤ b4
                    ∧ b4 < 192 ∧ 65536 ≤ cp ∧ cp ≤ 1114111 then
                  (decodeLoop f rest4).map (fun t => Char.ofNat cp :: t)
                else none
              | none => none
            | none => none
          | none => none
        else none
  | f + 1, c :: rest => (decodeLoop f rest).map (fun t => c :: t)

/-- JS `decodeURIComponent`; `none` models the thrown `URIError`. -/
def decodeURIComponent (s : String) : Option String :=
  (decodeLoop s.data.length s.data).map String.mk

/-- The `pathname` of legacy `url.parse`: everything before `?` or `#`
(no dot-segment normalisation), `null` (empty) defaulting later. -/
def urlParsePathname (u : String) : String :=
  String.mk (u.data.takeWhile (fun c => !(c == '?' || c == '#')))

/-- `StaticFileHandler.sanitizePath`: parse, map `/` to the index
document, percent-decode (a decode failure THROWS — nothing in
`sanitizePath` or `StaticFileHandler.handleRequest` catches it), then
force a leading `/`. -/
def sanitizePath (indexPath : String) (requestPath : String) : Option String :=
  let p0 := urlParsePathname requestPath
  let p1 := if p0 = "" then "/" else p0
  let p2 := if p1 = "/" then "/" ++ indexPath else p1
  match decodeURIComponent p2 with
  | none => none
  | some d => some (if jsStartsWith d "/" then d else "/" ++ d)

/-- `StaticFileHandler.handleRequest`: sanitize (outside any try/catch —
a `URIError` escapes to the server), strip the leading `/`, delegate. -/
def staticHandleRequest (fs0 fs1 : Fs) (mimeLookup : String → Option String)
    (toUTC : Nat → String) (gzipFn : List Nat → Option (List Nat))
    (ratioStr : Nat → Nat → String) (rootSegs : List String)
    (indexPath : String) (cache : CacheState) (req : Req) :
    Except Unit (Resp × CacheState) :=
  match sanitizePath indexPath (req.url.getD "/") with
  | none => Except.error ()
  | some sp =>
      Except.ok (handleFileRequest fs0 fs1 mimeLookup toUTC gzipFn ratioStr
        rootSegs cache req (String.mk (sp.data.drop 1)))

/-! ## `src/server.ts` (`GzipStaticServer.handleRequest`) -/

/-- The configuration fields the request path reads. -/
structure ServerCfg where
  cors : Bool
  indexPath : String
  deriving Repr

/-- The security and server-identification headers set on every request. -/
def securityHeaders (hs : Headers) : Headers :=
  let hs1 := hSet hs "X-Content-Type-Options" "nosniff"
  let hs2 := hSet hs1 "X-Frame-Options" "DENY"
  let hs3 := hSet hs2 "X-XSS-Protection" "1; mode=block"
  hSet hs3 "Server" "Gzip-Static-Server/1.0.0"

/-- The CORS headers set by `setupCors` when `config.cors` is enabled. -/
def corsHeaders (hs : Headers) : Headers :=
  let hs1 := hSet hs "Access-Control-Allow-Origin" "*"
  let hs2 := hSet hs1 "Access-Control-Allow-Methods" "GET, HEAD, OPTIONS"
  hSet hs2 "Access-Control-Allow-Headers"
    "Range, Accept-Encoding, If-None-Match, If-Modified-Since"

/-- One step of WHATWG-URL dot-segment removal (empty segments are kept). -/
def urlRemoveDotsStep (acc : List String) (s : String) : List String :=
  if s = "." then acc
  else if s = ".." then acc.dropLast
  else acc ++ [s]

/-- The `pathname` of `new URL(req.url, base)`: text before `?`/`#` with
dot segments removed (percent-encoding normalisation is not modelled; no
claim depends on it). -/
def urlPathname (u : String) : String :=
  let p0 := urlParsePathname u
  let p1 := if jsStartsWith p0 "/" then p0 else "/" ++ p0
  let segs := ((splitChars '/' (p1.data.drop 1)).map String.mk).foldl
    urlRemoveDotsStep []
  String.mk ('/' :: joinChars '/' (segs.map String.data))

/-- `GzipStaticServer.handleApiRequest`. The upload and file-list bodies
are outside the specified core; their responses are taken as parameters. -/
def handleApiRequest (uploadResp fileListResp : Resp) (hs : Headers)
    (method pathname : String) : Resp :=
  let hs1 := hSet hs "Access-Control-Allow-Origin" "*"
  let hs2 := hSet hs1 "Access-Control-Allow-Methods" "GET, POST, OPTIONS"
  let hs3 := hSet hs2 "Access-Control-Allow-Headers" "Content-Type"
  if method = "OPTIONS" then { status := 200, headers := hs3, body := Body.empty }
  else if pathname = "/api/upload" then
    if method = "POST" then uploadResp
    else { status := 405, headers := hSet hs3 "Allow" "POST, OPTIONS",
           body := Body.text "Method Not Allowed" }
  else if pathname = "/api/files" then
    if method = "GET" then fileListResp
    else { status := 405, headers := hSet hs3 "Allow" "GET, OPTIONS",
           body := Body.text "Method Not Allowed" }
  else { status := 404, headers := hSet hs3 "Content-Type" "application/json",
         body := Body.text "\x7b\"error\":\"API endpoint not found\"\x7d" }

/-- `GzipStaticServer.handleRequest`: CORS preflight, security headers,
`/api/` dispatch, GET/HEAD static serving with its catch-all 500, and the
405 fallback for other methods. (With CORS on, an OPTIONS request is
answered 200 by `setupCors`; the later `writeHead(405)` on the
already-ended response throws and is swallowed upstream, so the client
observes the 200.) -/
def serverHandleRequest (cfg : ServerCfg) (uploadResp fileListResp : Resp)
    (fs0 fs1 : Fs) (mimeLookup : String → Option String) (toUTC : Nat → String)
    (gzipFn : List Nat → Option (List Nat)) (ratioStr : Nat → Nat → String)
    (rootSegs : List String) (cache : CacheState) (req : Req) :
    Resp × CacheState :=
  let hs0 : Headers := if cfg.cors then corsHeaders [] else []
  if cfg.cors ∧ req.method = "OPTIONS" then
    ({ status := 200, headers := hs0, body := Body.empty }, cache)
  else
    let hs1 := securityHeaders hs0
    let pathname := urlPathname (req.url.getD "/")
    if jsStartsWith pathname "/api/" then
      (handleApiRequest uploadResp fileListResp hs1 req.method pathname, cache)
    else if req.method = "GET" ∨ req.method = "HEAD" then
      match staticHandleRequest fs0 fs1 mimeLookup toUTC gzipFn ratioStr
          rootSegs cfg.indexPath cache req with
      | Except.ok r => ({ r.1 with headers := hs1 ++ r.1.headers }, r.2)
      | Except.error _ =>
          ({ status := 500, headers := hSet hs1 "Content-Type" "text/plain",
             body := Body.text "Internal Server Error" }, cache)
    else
      ({ status := 405, headers := hSet hs1 "Allow" "GET, HEAD, OPTIONS",
         body := Body.text "Method Not Allowed" }, cache)

/-! ## General lemmas about the embedded operations -/

/-- Setting a header makes it readable back. -/
theorem hGet_hSet_self (hs : Headers) (k v : String) :
    hGet (hSet hs k v) k = some v := by
  induction hs with
  | nil => simp [hSet, hGet, List.find?]
  | cons p rest ih =>
      obtain ⟨k0, v0⟩ := p
      by_cases h : k0 = k
      · simp [hSet, hGet, List.find?, h]
      · simpa [hSet, hGet, List.find?, h] using ih

/-- A key just written into the JS map reads back as the written value. -/
theorem mapGet_mapSet_self (m : List (String × CacheEntry)) (k : String)
    (v : CacheEntry) : mapGet (mapSet m k v) k = some v := by
  induction m with
  | nil => simp [mapSet, mapGet, List.find?]
  | cons p rest ih =>
      obtain ⟨k0, v0⟩ := p
      by_cases h : k0 = k
      · simp [mapSet, mapGet, List.find?, h]
      · simpa [mapSet, mapGet, List.find?, h] using ih

/-- A cache hit leaves the entry present (re-inserted at the tail). -/
theorem cacheGet_hit_mapGet (st : CacheState) (p : String) (e : CacheEntry)
    (h : (cacheGet st p).1 = some e) :
    mapGet (cacheGet st p).2.entries p = some e := by
  unfold cacheGet at h ⊢
  cases hm : mapGet st.entries p with
  | none => rw [hm] at h; simp at h
  | some e0 =>
      rw [hm] at h
      simp at h
      subst h
      simpa using mapGet_mapSet_self (mapDelete st.entries p) p e0

/-- The common prefix is no longer than the first list. -/
theorem commonPrefixLen_le (a : List String) :
    ∀ b, commonPrefixLen a b ≤ a.length := by
  induction a with
  | nil => intro b; cases b <;> simp [commonPrefixLen]
  | cons x xs ih =>
      intro b
      cases b with
      | nil => simp [commonPrefixLen]
      | cons y ys =>
          by_cases h : x = y
          · simpa [commonPrefixLen, h, Nat.succ_le_succ_iff] using ih ys
          · simp [commonPrefixLen, h]

/-- A full-length common prefix is a genuine list prefix. -/
theorem prefix_of_commonPrefixLen_eq (a : List String) :
    ∀ b, commonPrefixLen a b = a.length → a <+: b := by
  induction a with
  | nil => intro b _; exact List.nil_prefix
  | cons x xs ih =>
      intro b h
      cases b with
      | nil => simp [commonPrefixLen] at h
      | cons y ys =>
          by_cases hxy : x = y
          · subst hxy
            rw [commonPrefixLen, if_pos rfl, List.length_cons,
              Nat.add_right_cancel_iff] at h
            exact List.cons_prefix_cons.mpr ⟨rfl, ih ys h⟩
          · simp [commonPrefixLen, hxy] at h

/-- When `path.relative(R, N)` does not start with `..`, `R` is a prefix
of `N` (the join landed inside the root). -/
theorem relNoDotDot_prefix (R N : List String)
    (h : relStartsWithDotDot (pathRelativeSegs R N) = false) : R <+: N := by
  rcases Nat.lt_or_ge (commonPrefixLen R N) R.length with hlt | hge
  · exfalso
    obtain ⟨k, hk⟩ : ∃ k, R.length - commonPrefixLen R N = k + 1 :=
      ⟨R.length - commonPrefixLen R N - 1, by omega⟩
    rw [pathRelativeSegs, hk, List.replicate_succ, List.cons_append] at h
    have ht : relStartsWithDotDot
        (".." :: (List.replicate k ".." ++ N.drop (commonPrefixLen R N)))
        = true := rfl
    rw [ht] at h
    exact absurd h (by simp)
  · exact prefix_of_commonPrefixLen_eq R N
      (le_antisymm (commonPrefixLen_le R N) hge)

/-- The stat-derived etag is never the empty string. -/
theorem statETag_ne_empty (size mtimeMs : Nat) : statETag size mtimeMs ≠ "" := by
  intro hc
  have hl := congrArg String.length hc
  simp [statETag, String.length_append] at hl
  exact absurd hl.2 (by decide)

/-- What a successful `getFileInfo` guarantees: the returned path is the
join rendered under the root, the etag is the stat-derived one, the
relative-path check passed, and the stat found a regular file. -/
theorem getFileInfo_some_spec (fs : Fs) (mimeLookup : String → Option String)
    (rootSegs : List String) (filePath : String) (fi : FileInfo)
    (h : getFileInfo fs mimeLookup rootSegs filePath = some fi) :
    fi.path = renderAbs (pathJoin rootSegs filePath)
    ∧ fi.etag = statETag fi.size fi.mtimeMs
    ∧ relStartsWithDotDot (pathRelativeSegs rootSegs (pathJoin rootSegs filePath)) = false
    ∧ ∃ stat, fs (renderAbs (pathJoin rootSegs filePath)) = some stat
        ∧ stat.isFile = true ∧ fi.size = stat.size ∧ fi.mtimeMs = stat.mtimeMs := by
  unfold getFileInfo at h
  dsimp only at h
  cases heq : fs (renderAbs (pathJoin rootSegs filePath)) with
  | none => rw [heq] at h; exact absurd h (by simp)
  | some stat =>
      rw [heq] at h
      dsimp only at h
      by_cases hfile : stat.isFile
      case neg =>
        rw [if_pos (by simp [hfile])] at h
        exact absurd h (by simp)
      case pos =>
        rw [if_neg (by simp [hfile])] at h
        by_cases hrel : relStartsWithDotDot
            (pathRelativeSegs rootSegs (pathJoin rootSegs filePath)) = true
        · rw [if_pos hrel] at h
          exact absurd h (by simp)
        · rw [if_neg hrel] at h
          have hfi := Option.some.inj h
          subst hfi
          exact ⟨rfl, rfl, by simpa using hrel, stat, rfl, hfile, rfl, rfl⟩

/-! ## Claim scenarios: concrete filesystems, caches and requests -/

/-- Concrete stand-in for `Date.toUTCString` in cache scenarios. -/
def c1Utc : Nat → String := fun n => "U" ++ toString n

/-- C1 scenario filesystem before the overwrite. -/
def c1Fs : Fs := fun p =>
  if p = "/r/a" then some ⟨true, 6, 100, [1, 2, 3, 4, 5, 6]⟩
  else if p = "/r/b" then some ⟨true, 4, 200, [1, 2, 3, 4]⟩
  else none

/-- C1 scenario filesystem after `/r/a` grew to 8 bytes. -/
def c1Fs2 : Fs := fun p =>
  if p = "/r/a" then some ⟨true, 8, 300, [1, 2, 3, 4, 5, 6, 7, 8]⟩ else c1Fs p

/-- Cache after `set /r/a` (6 bytes) with `maxSize = 10`. -/
def c1Cache1 : CacheState :=
  (cacheSet c1Fs c1Utc (emptyCache 10) "/r/a" [1, 2, 3, 4, 5, 6] "text/plain"
    none).getD (emptyCache 0)

/-- Cache after the further `set /r/b` (4 bytes). -/
def c1Cache2 : CacheState :=
  (cacheSet c1Fs c1Utc c1Cache1 "/r/b" [1, 2, 3, 4] "text/plain" none).getD
    (emptyCache 0)

/-- Cache after the overwriting `set /r/a` (8 bytes), which evicts `/r/a`
itself during the same `set`. -/
def c1Final : CacheState :=
  (cacheSet c1Fs2 c1Utc c1Cache2 "/r/a" [1, 2, 3, 4, 5, 6, 7, 8] "text/plain"
    none).getD (emptyCache 0)

/-! ## The claims -/

/-- C1: the claim states that after every cache operation `currentSize`
equals the total size of the present entries and stays within `maxSize`,
in particular when a `set` overwrites an existing key and eviction runs.
The code violates this: with `maxSize = 10`, after `set a` (6 bytes),
`set b` (4 bytes) and an overwriting `set a` (8 bytes), the overwrite
subtracts the old size of `a` but leaves `a` in the map, the eviction loop
then evicts `a` and subtracts its size again, and the final state reports
`currentSize = 6` while the entries actually hold 12 bytes — more than
`maxSize`. -/
theorem c1_size_invariant_violated_on_overwrite_eviction :
    cacheSet c1Fs c1Utc (emptyCache 10) "/r/a" [1, 2, 3, 4, 5, 6] "text/plain"
        none = some c1Cache1
    ∧ cacheSet c1Fs c1Utc c1Cache1 "/r/b" [1, 2, 3, 4] "text/plain" none
        = some c1Cache2
    ∧ cacheSet c1Fs2 c1Utc c1Cache2 "/r/a" [1, 2, 3, 4, 5, 6, 7, 8] "text/plain"
        none = some c1Final
    ∧ c1Final.maxSize = 10
    ∧ c1Final.currentSize = 6
    ∧ entriesSizeSum c1Final = 12
    ∧ ¬(c1Final.currentSize = (entriesSizeSum c1Final : Int))
    ∧ ¬(entriesSizeSum c1Final ≤ c1Final.maxSize) := by decide

/-- C3: the claim states that an `image/svg+xml` file above the
compression threshold is compressed because the most specific rule wins.
In the source both compressibility checks scan the non-compressible
prefixes first, so the blind `image/` prefix rejects SVG regardless of
size: both return `false` for a 2048-byte SVG. -/
theorem c3_svg_rejected_by_image_prefix :
    shouldCompressFile "image/svg+xml" 2048 = false
      ∧ shouldCompress "image/svg+xml" = false := by decide

/-- C6: for every request path — including `..` segments and decoded
traversal sequences — a successful `getFileInfo` resolves to a regular
file whose absolute path lies under `rootDir`; every other case returns
`none` and is served as 404. -/
theorem c6_sandbox_never_escapes (fs : Fs) (mimeLookup : String → Option String)
    (rootSegs : List String) (filePath : String) (fi : FileInfo)
    (h : getFileInfo fs mimeLookup rootSegs filePath = some fi) :
    (∃ rest, fi.path = renderAbs (rootSegs ++ rest))
      ∧ ∃ stat, fs fi.path = some stat ∧ stat.isFile = true := by
  obtain ⟨hpath, -, hrel, stat, hstat, hfile, -, -⟩ :=
    getFileInfo_some_spec fs mimeLookup rootSegs filePath fi h
  obtain ⟨rest, hrest⟩ :=
    relNoDotDot_prefix rootSegs (pathJoin rootSegs filePath) hrel
  refine ⟨⟨rest, ?_⟩, stat, ?_, hfile⟩
  · rw [hpath, ← hrest]
  · rw [hpath]; exact hstat

/-- C6 scenario filesystem: one regular file under the root. -/
def c6Fs : Fs := fun p => if p = "/srv/a.txt" then some ⟨true, 1, 5, [1]⟩ else none

/-- The `FileInfo` that `getFileInfo` returns in the C6 scenario. -/
def c6Fi : FileInfo :=
  ⟨"/srv/a.txt", 1, 5, statETag 1 5, "application/octet-stream", false⟩

/-- Witness for C6 at a concrete filesystem, root and path. -/
theorem c6_sandbox_never_escapes_witness :
    (∃ rest, c6Fi.path = renderAbs (["srv"] ++ rest))
      ∧ ∃ stat, c6Fs c6Fi.path = some stat ∧ stat.isFile = true :=
  c6_sandbox_never_escapes c6Fs (fun _ => none) ["srv"] "a.txt" c6Fi (by decide)

/-- C7 scenario filesystem: three 4-byte files. -/
def c7Fs : Fs := fun p =>
  if p = "/r/A" then some ⟨true, 4, 1, [9, 9, 9, 9]⟩
  else if p = "/r/B" then some ⟨true, 4, 2, [8, 8, 8, 8]⟩
  else if p = "/r/C" then some ⟨true, 4, 3, [7, 7, 7, 7]⟩
  else none

/-- Cache (capacity 8 = two 4-byte entries) after inserting A. -/
def c7Cache1 : CacheState :=
  (cacheSet c7Fs c1Utc (emptyCache 8) "/r/A" [9, 9, 9, 9] "text/plain" none).getD
    (emptyCache 0)

/-- After inserting B. -/
def c7Cache2 : CacheState :=
  (cacheSet c7Fs c1Utc c7Cache1 "/r/B" [8, 8, 8, 8] "text/plain" none).getD
    (emptyCache 0)

/-- After touching A via `get`. -/
def c7Cache3 : CacheState := (cacheGet c7Cache2 "/r/A").2

/-- After inserting C, which must evict B. -/
def c7Final : CacheState :=
  (cacheSet c7Fs c1Utc c7Cache3 "/r/C" [7, 7, 7, 7] "text/plain" none).getD
    (emptyCache 0)

/-- C7: with capacity for exactly two equal-size entries, inserting A and
B, touching A via `get`, then inserting C leaves the cache holding A and C
with B (not A) evicted. -/
theorem c7_lru_get_promotes_entry :
    cacheSet c7Fs c1Utc (emptyCache 8) "/r/A" [9, 9, 9, 9] "text/plain" none
        = some c7Cache1
    ∧ cacheSet c7Fs c1Utc c7Cache1 "/r/B" [8, 8, 8, 8] "text/plain" none
        = some c7Cache2
    ∧ (cacheGet c7Cache2 "/r/A").1.isSome = true
    ∧ cacheSet c7Fs c1Utc c7Cache3 "/r/C" [7, 7, 7, 7] "text/plain" none
        = some c7Final
    ∧ (mapGet c7Final.entries "/r/A").isSome = true
    ∧ (mapGet c7Final.entries "/r/C").isSome = true
    ∧ mapGet c7Final.entries "/r/B" = none
    ∧ c7Final.entries.map Prod.fst = ["/r/A", "/r/C"] := by decide

/-- C8: a `set` whose entry size (content plus compressed length) exceeds
`maxSize` leaves the cache state exactly unchanged — same `currentSize`,
same entries — and the oversized entry is not admitted. (The stat the
`set` performs must succeed; a missing path is claim C10's territory.) -/
theorem c8_oversized_set_is_noop (fs : Fs) (toUTC : Nat → String)
    (st : CacheState) (path : String) (content : List Nat) (mimeType : String)
    (compressed : Option (List Nat)) (stat : FsNode)
    (hstat : fs path = some stat)
    (hsize : content.length + ((compressed.map List.length).getD 0) > st.maxSize) :
    cacheSet fs toUTC st path content mimeType compressed = some st := by
  unfold cacheSet
  rw [hstat]
  dsimp only
  rw [if_pos]
  show ((content.length + ((compressed.map List.length).getD 0) : Nat) : Int)
    > (st.maxSize : Int)
  exact_mod_cast hsize

/-- C8 scenario filesystem: one 4-byte file. -/
def c8Fs : Fs := fun p =>
  if p = "/r/big" then some ⟨true, 4, 7, [1, 2, 3, 4]⟩ else none

/-- Witness for C8: a 4-byte entry against a 3-byte cache is rejected and
the empty cache is returned untouched. -/
theorem c8_oversized_set_is_noop_witness :
    c8Fs "/r/big" = some ⟨true, 4, 7, [1, 2, 3, 4]⟩
    ∧ ([1, 2, 3, 4] : List Nat).length + (((none : Option (List Nat)).map
        List.length).getD 0) > (emptyCache 3).maxSize
    ∧ cacheSet c8Fs c1Utc (emptyCache 3) "/r/big" [1, 2, 3, 4] "text/plain" none
        = some (emptyCache 3) :=
  ⟨by decide, by decide,
    c8_oversized_set_is_noop c8Fs c1Utc (emptyCache 3) "/r/big" [1, 2, 3, 4]
      "text/plain" none ⟨true, 4, 7, [1, 2, 3, 4]⟩ (by decide) (by decide)⟩

/-- C9: every request on a non-`/api/` path whose method is neither GET
nor HEAD — and which is not a CORS-handled OPTIONS preflight — receives a
405 carrying `Allow: GET, HEAD, OPTIONS`. -/
theorem c9_method_not_allowed_405 (cfg : ServerCfg) (uploadResp fileListResp : Resp)
    (fs0 fs1 : Fs) (mimeLookup : String → Option String) (toUTC : Nat → String)
    (gzipFn : List Nat → Option (List Nat)) (ratioStr : Nat → Nat → String)
    (rootSegs : List String) (cache : CacheState) (req : Req)
    (hget : req.method ≠ "GET") (hhead : req.method ≠ "HEAD")
    (hapi : jsStartsWith (urlPathname (req.url.getD "/")) "/api/" = false)
    (hcors : ¬(cfg.cors = true ∧ req.method = "OPTIONS")) :
    (serverHandleRequest cfg uploadResp fileListResp fs0 fs1 mimeLookup toUTC
        gzipFn ratioStr rootSegs cache req).1.status = 405
    ∧ hGet (serverHandleRequest cfg uploadResp fileListResp fs0 fs1 mimeLookup
        toUTC gzipFn ratioStr rootSegs cache req).1.headers "Allow"
        = some "GET, HEAD, OPTIONS" := by
  unfold serverHandleRequest
  rw [if_neg hcors]
  dsimp only
  rw [if_neg (by simp [hapi])]
  rw [if_neg (by rintro (h | h); exact hget h; exact hhead h)]
  exact ⟨rfl, hGet_hSet_self _ _ _⟩

/-- Witness for C9: a POST to a plain static path with CORS off. -/
theorem c9_method_not_allowed_405_witness :
    (serverHandleRequest ⟨false, "index.html"⟩ ⟨0, [], Body.empty⟩
        ⟨0, [], Body.empty⟩ (fun _ => none) (fun _ => none) (fun _ => none)
        c1Utc (fun _ => none) (fun _ _ => "") ["r"] (emptyCache 10)
        ⟨"POST", some "/x", none, none, none⟩).1.status = 405
    ∧ hGet (serverHandleRequest ⟨false, "index.html"⟩ ⟨0, [], Body.empty⟩
        ⟨0, [], Body.empty⟩ (fun _ => none) (fun _ => none) (fun _ => none)
        c1Utc (fun _ => none) (fun _ _ => "") ["r"] (emptyCache 10)
        ⟨"POST", some "/x", none, none, none⟩).1.headers "Allow"
        = some "GET, HEAD, OPTIONS" :=
  c9_method_not_allowed_405 ⟨false, "index.html"⟩ ⟨0, [], Body.empty⟩
    ⟨0, [], Body.empty⟩ (fun _ => none) (fun _ => none) (fun _ => none)
    c1Utc (fun _ => none) (fun _ _ => "") ["r"] (emptyCache 10)
    ⟨"POST", some "/x", none, none, none⟩
    (by decide) (by decide) (by decide) (by decide)

/-- C10: `MemoryCache.set` stats the key path synchronously; when the path
has vanished from the filesystem by `set` time, `set` throws, and the
request — which already holds the freshly read bytes — is answered 500
("Internal server error") instead of serving them. -/
theorem c10_set_stats_path_500_when_gone (fs0 fs1 : Fs)
    (mimeLookup : String → Option String) (toUTC : Nat → String)
    (gzipFn : List Nat → Option (List Nat)) (ratioStr : Nat → Nat → String)
    (rootSegs : List String) (cache : CacheState) (req : Req) (filePath : String)
    (fi : FileInfo) (node : FsNode)
    (hfi : getFileInfo fs0 mimeLookup rootSegs filePath = some fi)
    (hmiss : (cacheGet cache fi.path).1 = none)
    (hread : fs0 fi.path = some node)
    (hgone : fs1 fi.path = none) :
    cacheSet fs1 toUTC (cacheGet cache fi.path).2 fi.path node.content
        fi.mimeType (if fi.shouldCompress then gzipFn node.content else none)
        = none
    ∧ (handleFileRequest fs0 fs1 mimeLookup toUTC gzipFn ratioStr rootSegs
        cache req filePath).1 = sendError [] 500 "Internal server error" := by
  have hset : cacheSet fs1 toUTC (cacheGet cache fi.path).2 fi.path node.content
      fi.mimeType (if fi.shouldCompress then gzipFn node.content else none)
      = none := by
    unfold cacheSet
    rw [hgone]
  refine ⟨hset, ?_⟩
  unfold handleFileRequest
  rw [hfi]
  dsimp only
  rw [hmiss]
  dsimp only
  unfold fillAndServe
  rw [hread]
  dsimp only
  rw [hset]

/-- C10 scenario: the file exists at stat/read time... -/
def c10Fs : Fs := fun p =>
  if p = "/r/d.bin" then some ⟨true, 3, 1000, [97, 98, 99]⟩ else none

/-- ...and has vanished by `cache.set` time. -/
def c10FsGone : Fs := fun _ => none

/-- Witness for C10: the set throws and the response is the 500. -/
theorem c10_set_stats_path_500_when_gone_witness :
    cacheSet c10FsGone c1Utc (cacheGet (emptyCache 100) "/r/d.bin").2 "/r/d.bin"
        [97, 98, 99] "application/octet-stream" none = none
    ∧ (handleFileRequest c10Fs c10FsGone (fun _ => none) c1Utc (fun _ => none)
        (fun _ _ => "") ["r"] (emptyCache 100)
        ⟨"GET", some "/d.bin", none, none, none⟩ "d.bin").1
        = sendError [] 500 "Internal server error" :=
  c10_set_stats_path_500_when_gone c10Fs c10FsGone (fun _ => none) c1Utc
    (fun _ => none) (fun _ _ => "") ["r"] (emptyCache 100)
    ⟨"GET", some "/d.bin", none, none, none⟩ "d.bin"
    ⟨"/r/d.bin", 3, 1000, statETag 3 1000, "application/octet-stream", false⟩
    ⟨true, 3, 1000, [97, 98, 99]⟩
    (by decide) (by decide) (by decide) (by decide)

/-- C5 counterexample: the raw path `/%` fails percent-decoding, and the
server answers 500 — not the 404 the claim states. -/
theorem c5_decode_error_yields_500_not_404 :
    sanitizePath "index.html" "/%" = none
    ∧ (serverHandleRequest ⟨false, "index.html"⟩ ⟨0, [], Body.empty⟩
        ⟨0, [], Body.empty⟩ (fun _ => none) (fun _ => none) (fun _ => none)
        c1Utc (fun _ => none) (fun _ _ => "") ["r"] (emptyCache 10)
        ⟨"GET", some "/%", none, none, none⟩).1.status = 500
    ∧ ¬((serverHandleRequest ⟨false, "index.html"⟩ ⟨0, [], Body.empty⟩
        ⟨0, [], Body.empty⟩ (fun _ => none) (fun _ => none) (fun _ => none)
        c1Utc (fun _ => none) (fun _ _ => "") ["r"] (emptyCache 10)
        ⟨"GET", some "/%", none, none, none⟩).1.status = 404) := by decide

/-- C5 amended: when percent-decoding of the request path fails, the
`URIError` escapes `sanitizePath` and `StaticFileHandler.handleRequest`
(neither catches it) and is caught only by the server's top-level handler,
which answers a generic 500 (`text/plain`, "Internal Server Error") and
leaves the cache untouched — the request fails closed, but with 500, not
the 404 the spec asserts. -/
theorem c5_decode_error_propagates_to_500 (cfg : ServerCfg)
    (uploadResp fileListResp : Resp) (fs0 fs1 : Fs)
    (mimeLookup : String → Option String) (toUTC : Nat → String)
    (gzipFn : List Nat → Option (List Nat)) (ratioStr : Nat → Nat → String)
    (rootSegs : List String) (cache : CacheState) (req : Req)
    (hdec : sanitizePath cfg.indexPath (req.url.getD "/") = none)
    (hmeth : req.method = "GET" ∨ req.method = "HEAD")
    (hapi : jsStartsWith (urlPathname (req.url.getD "/")) "/api/" = false)
    (hcors : ¬(cfg.cors = true ∧ req.method = "OPTIONS")) :
    (serverHandleRequest cfg uploadResp fileListResp fs0 fs1 mimeLookup toUTC
        gzipFn ratioStr rootSegs cache req).1.status = 500
    ∧ (serverHandleRequest cfg uploadResp fileListResp fs0 fs1 mimeLookup toUTC
        gzipFn ratioStr rootSegs cache req).1.body
        = Body.text "Internal Server Error"
    ∧ hGet (serverHandleRequest cfg uploadResp fileListResp fs0 fs1 mimeLookup
        toUTC gzipFn ratioStr rootSegs cache req).1.headers "Content-Type"
        = some "text/plain"
    ∧ (serverHandleRequest cfg uploadResp fileListResp fs0 fs1 mimeLookup toUTC
        gzipFn ratioStr rootSegs cache req).2 = cache := by
  have hst : staticHandleRequest fs0 fs1 mimeLookup toUTC gzipFn ratioStr
      rootSegs cfg.indexPath cache req = Except.error () := by
    unfold staticHandleRequest
    rw [hdec]
  unfold serverHandleRequest
  rw [if_neg hcors]
  dsimp only
  rw [if_neg (by simp [hapi])]
  rw [if_pos hmeth]
  rw [hst]
  exact ⟨rfl, rfl, hGet_hSet_self _ _ _, rfl⟩

/-- Witness for the amended C5 at the concrete malformed path `/%`. -/
theorem c5_decode_error_propagates_to_500_witness :
    (serverHandleRequest ⟨false, "index.html"⟩ ⟨0, [], Body.empty⟩
        ⟨0, [], Body.empty⟩ (fun _ => none) (fun _ => none) (fun _ => none)
        c1Utc (fun _ => none) (fun _ _ => "") ["r"] (emptyCache 10)
        ⟨"HEAD", some "/%", none, none, none⟩).1.status = 500
    ∧ (serverHandleRequest ⟨false, "index.html"⟩ ⟨0, [], Body.empty⟩
        ⟨0, [], Body.empty⟩ (fun _ => none) (fun _ => none) (fun _ => none)
        c1Utc (fun _ => none) (fun _ _ => "") ["r"] (emptyCache 10)
        ⟨"HEAD", some "/%", none, none, none⟩).1.body
        = Body.text "Internal Server Error"
    ∧ hGet (serverHandleRequest ⟨false, "index.html"⟩ ⟨0, [], Body.empty⟩
        ⟨0, [], Body.empty⟩ (fun _ => none) (fun _ => none) (fun _ => none)
        c1Utc (fun _ => none) (fun _ _ => "") ["r"] (emptyCache 10)
        ⟨"HEAD", some "/%", none, none, none⟩).1.headers "Content-Type"
        = some "text/plain"
    ∧ (serverHandleRequest ⟨false, "index.html"⟩ ⟨0, [], Body.empty⟩
        ⟨0, [], Body.empty⟩ (fun _ => none) (fun _ => none) (fun _ => none)
        c1Utc (fun _ => none) (fun _ _ => "") ["r"] (emptyCache 10)
        ⟨"HEAD", some "/%", none, none, none⟩).2 = emptyCache 10 :=
  c5_decode_error_propagates_to_500 ⟨false, "index.html"⟩ ⟨0, [], Body.empty⟩
    ⟨0, [], Body.empty⟩ (fun _ => none) (fun _ => none) (fun _ => none)
    c1Utc (fun _ => none) (fun _ _ => "") ["r"] (emptyCache 10)
    ⟨"HEAD", some "/%", none, none, none⟩
    (by decide) (Or.inr rfl) (by decide) (by decide)

/-- C4 scenario filesystem: one regular 3-byte file, mtime 1000. -/
def c4Fs : Fs := fun p =>
  if p = "/r/d.bin" then some ⟨true, 3, 1000, [97, 98, 99]⟩ else none

/-- C4 cache: prefilled by the code's own `set` for that file. -/
def c4Cache : CacheState :=
  (cacheSet c4Fs c1Utc (emptyCache 100) "/r/d.bin" [97, 98, 99]
    "application/octet-stream" none).getD (emptyCache 0)

/-- The stored entry: its etag is the quoted md5 of the content. -/
def c4Entry : CacheEntry :=
  ⟨[97, 98, 99], none, generateETag [97, 98, 99], c1Utc 1000,
    "application/octet-stream", 1000⟩

/-- C4 counterexample: the entry is present and the file unchanged, the
request's If-None-Match equals the ENTRY's etag (the stored md5), yet the
response is 200 — the conditional check compares against the stat-derived
etag, so the claim as stated is false. -/
theorem c4_entry_etag_not_honoured :
    mapGet c4Cache.entries "/r/d.bin" = some c4Entry
    ∧ c4Entry.mtime = 1000
    ∧ (handleFileRequest c4Fs c4Fs (fun _ => none) c1Utc (fun _ => none)
        (fun _ _ => "") ["r"] c4Cache
        ⟨"GET", some "/d.bin", some c4Entry.etag, none, none⟩ "d.bin").1.status
        = 200 := by decide

/-- C4 amended: with the entry present and unmodified, the request gets a
bodyless 304 when If-None-Match equals the STAT-DERIVED etag
(`"<size>-<mtimeMs>"`, which is also the ETag the server serves), or when
If-Modified-Since equals the current mtime's UTC string (the entry's
`lastModified` for an unchanged file) — the latter regardless of whether
an If-None-Match header is present: a nonmatching If-None-Match merely
falls through to the If-Modified-Since check. -/
theorem c4_conditional_304_stat_etag (fs : Fs) (mimeLookup : String → Option String)
    (toUTC : Nat → String) (gzipFn : List Nat → Option (List Nat))
    (ratioStr : Nat → Nat → String) (rootSegs : List String) (cache : CacheState)
    (req : Req) (filePath : String) (fi : FileInfo) (e : CacheEntry)
    (hfi : getFileInfo fs mimeLookup rootSegs filePath = some fi)
    (hget : (cacheGet cache fi.path).1 = some e)
    (hfresh : e.mtime = fi.mtimeMs)
    (hcond : req.ifNoneMatch = some fi.etag
      ∨ (req.ifModifiedSince = some (toUTC fi.mtimeMs)
          ∧ toUTC fi.mtimeMs ≠ "")) :
    (handleFileRequest fs fs mimeLookup toUTC gzipFn ratioStr rootSegs cache
        req filePath).1.status = 304
    ∧ (handleFileRequest fs fs mimeLookup toUTC gzipFn ratioStr rootSegs cache
        req filePath).1.body = Body.empty := by
  obtain ⟨-, hetag, -, -⟩ :=
    getFileInfo_some_spec fs mimeLookup rootSegs filePath fi hfi
  have hne : fi.etag ≠ "" := by rw [hetag]; exact statETag_ne_empty _ _
  have hmod : isModifiedChk (cacheGet cache fi.path).2 fi.path fi.mtimeMs
      = false := by
    unfold isModifiedChk
    rw [cacheGet_hit_mapGet cache fi.path e hget]
    simp [hfresh]
  unfold handleFileRequest
  rw [hfi]
  dsimp only
  rw [hget]
  dsimp only
  rw [hmod]
  rw [if_pos (by decide)]
  unfold serveEntry
  rcases hcond with h1 | ⟨h2b, h2c⟩
  · rw [h1]
    have ht : hdrTruthyEq (some fi.etag) fi.etag = true := by
      simp [hdrTruthyEq, hne]
    rw [ht]
    exact ⟨rfl, rfl⟩
  · have hB : hdrTruthyEq (some (toUTC fi.mtimeMs)) (toUTC fi.mtimeMs)
        = true := by
      simp [hdrTruthyEq, h2c]
    cases hA : hdrTruthyEq req.ifNoneMatch fi.etag with
    | true => exact ⟨rfl, rfl⟩
    | false =>
        rw [if_neg (by simp), h2b, if_pos hB]
        exact ⟨rfl, rfl⟩

/-- Witness for the amended C4 at its If-Modified-Since disjunct, with an
If-None-Match header that is present but does not match the stat-derived
etag (it carries the entry's md5 etag): the request still gets a bodyless
304 through the If-Modified-Since check. -/
theorem c4_conditional_304_stat_etag_witness :
    (handleFileRequest c4Fs c4Fs (fun _ => none) c1Utc (fun _ => none)
        (fun _ _ => "") ["r"] c4Cache
        ⟨"GET", some "/d.bin", some c4Entry.etag, some (c1Utc 1000), none⟩
        "d.bin").1.status = 304
    ∧ (handleFileRequest c4Fs c4Fs (fun _ => none) c1Utc (fun _ => none)
        (fun _ _ => "") ["r"] c4Cache
        ⟨"GET", some "/d.bin", some c4Entry.etag, some (c1Utc 1000), none⟩
        "d.bin").1.body = Body.empty :=
  c4_conditional_304_stat_etag c4Fs (fun _ => none) c1Utc (fun _ => none)
    (fun _ _ => "") ["r"] c4Cache
    ⟨"GET", some "/d.bin", some c4Entry.etag, some (c1Utc 1000), none⟩ "d.bin"
    ⟨"/r/d.bin", 3, 1000, statETag 3 1000, "application/octet-stream", false⟩
    c4Entry (by decide) (by decide) (by decide) (Or.inr ⟨rfl, by decide⟩)

/-- C2 scenario filesystem: a 2000-byte `text/html` file (content modelled
by two bytes; the compressibility threshold reads the stat size). -/
def c2Fs : Fs := fun p =>
  if p = "/r/big.html" then some ⟨true, 2000, 10, [104, 105]⟩ else none

/-- C2 scenario MIME table. -/
def c2Mime : String → Option String := fun p =>
  if p = "/r/big.html" then some "text/html" else none

/-- C2: the claim says `Content-Encoding: gzip` accompanies the compressed
body exactly when a compressed form exists AND the client accepts gzip,
and that otherwise raw bytes are served with no `Content-Encoding` header.
In the code `setCompressionHeaders` keys only on the existence of the
compression result: a client that does not accept gzip receives the RAW
bytes together with a `Content-Encoding: gzip` header. -/
theorem c2_content_encoding_set_without_accept_gzip :
    acceptsGzip none = false
    ∧ (handleFileRequest c2Fs c2Fs c2Mime c1Utc (fun _ => some [42])
        (fun _ _ => "") ["r"] (emptyCache 100)
        ⟨"GET", some "/big.html", none, none, none⟩ "big.html").1.status = 200
    ∧ hGet (handleFileRequest c2Fs c2Fs c2Mime c1Utc (fun _ => some [42])
        (fun _ _ => "") ["r"] (emptyCache 100)
        ⟨"GET", some "/big.html", none, none, none⟩ "big.html").1.headers
        "Content-Encoding" = some "gzip"
    ∧ (handleFileRequest c2Fs c2Fs c2Mime c1Utc (fun _ => some [42])
        (fun _ _ => "") ["r"] (emptyCache 100)
        ⟨"GET", some "/big.html", none, none, none⟩ "big.html").1.body
        = Body.bytes [104, 105] := by decide
